import Mathlib

/-!
Verification of the contact-management UI core (src/App.js).

The JavaScript source is shallowly embedded: the pure validation
functions become Lean functions on `String`, the form state (draft
fields plus the per-field error object) becomes explicit records, and
the mock backend (`API.contacts` with `createContact` / `getContacts` /
`deleteContact`) becomes explicit state passing on a `Store` record,
with the `Date.now()` clock supplied as an explicit `Nat` millisecond
timestamp at each create.
-/

namespace ContactApp

/-- Whitespace class of JavaScript (`\s` in a regex, and the characters
removed by `String.prototype.trim`): tab, LF, VT, FF, CR, space, NBSP,
Ogham space, the U+2000–U+200A range, LS, PS, NNBSP, MMSP, ideographic
space and the BOM. -/
def isJsWhitespace (c : Char) : Bool :=
  c.toNat = 9 || c.toNat = 10 || c.toNat = 11 || c.toNat = 12 || c.toNat = 13 ||
  c.toNat = 32 || c.toNat = 160 || c.toNat = 5760 ||
  (8192 ≤ c.toNat && c.toNat ≤ 8202) ||
  c.toNat = 8232 || c.toNat = 8233 || c.toNat = 8239 || c.toNat = 8287 ||
  c.toNat = 12288 || c.toNat = 65279

/-- JavaScript `String.prototype.trim`: drop leading and trailing
JS whitespace. -/
def jsTrim (s : String) : String :=
  ⟨((s.toList.dropWhile isJsWhitespace).reverse.dropWhile isJsWhitespace).reverse⟩

/-- Character class `[^\s@]` of the email regex in `validateEmail`. -/
def isEmailChar (c : Char) : Bool :=
  !(isJsWhitespace c) && c != '@'

/-- Embedding of `validateEmail` (src/App.js line 74): the test of the
regex `^[^\s@]+@[^\s@]+\.[^\s@]+$`.  Since the classes before and after
the literal `@` exclude `@`, a match splits the string at its unique
`@`; the part before is a nonempty run of `[^\s@]`, and the part after
is a nonempty-dot-nonempty run of `[^\s@]`, i.e. a run of `[^\s@]`
containing a `.` that is neither its first nor its last character. -/
def validateEmail (s : String) : Bool :=
  let cs := s.toList
  let a := cs.takeWhile (fun c => c != '@')
  match cs.dropWhile (fun c => c != '@') with
  | [] => false
  | _ :: after =>
    !a.isEmpty && a.all isEmailChar && after.all isEmailChar &&
      (after.drop 1).dropLast.contains '.'

/-- Character class `[\d\s\-\+\(\)]` of the phone regex in
`validatePhone`. -/
def isPhoneChar (c : Char) : Bool :=
  c.isDigit || isJsWhitespace c || c = '-' || c = '+' || c = '(' || c = ')'

/-- Embedding of `validatePhone` (src/App.js line 79): the test of the
regex `^[\d\s\-\+\(\)]{10,}$`: every character is a digit, JS
whitespace, hyphen, plus or parenthesis, and there are at least ten of
them. -/
def validatePhone (s : String) : Bool :=
  s.toList.all isPhoneChar && decide (10 ≤ s.length)

/-- The four form fields wired to `handleChange` / `handleBlur` via the
`name` attribute of the inputs. -/
inductive Field where
  | name
  | email
  | phone
  | message
deriving DecidableEq

/-- The draft form state (`formData` in src/App.js line 38). -/
structure FormData where
  name : String
  email : String
  phone : String
  message : String
deriving DecidableEq

/-- Read a draft field (`formData[name]`). -/
def FormData.get (fd : FormData) : Field → String
  | .name => fd.name
  | .email => fd.email
  | .phone => fd.phone
  | .message => fd.message

/-- Functional update of one draft field
(`{ ...prev, [name]: value }`). -/
def FormData.set (fd : FormData) : Field → String → FormData
  | .name, v => { fd with name := v }
  | .email, v => { fd with email := v }
  | .phone, v => { fd with phone := v }
  | .message, v => { fd with message := v }

/-- The initial draft: all four fields empty (src/App.js line 38). -/
def emptyForm : FormData :=
  { name := "", email := "", phone := "", message := "" }

/-- The error object (`errors` in src/App.js line 46): a JS object whose
possible keys are the four field names.  `none` models an absent key,
`some m` a key present with value `m` — in particular `some ""` is a
present key whose value is the empty string, which is falsy but still
counted by `Object.keys`. -/
structure ErrorMap where
  name : Option String
  email : Option String
  phone : Option String
  message : Option String
deriving DecidableEq

/-- The empty error object `{}`. -/
def ErrorMap.empty : ErrorMap :=
  { name := none, email := none, phone := none, message := none }

/-- Read a field's entry (`errors[name]`). -/
def ErrorMap.get (e : ErrorMap) : Field → Option String
  | .name => e.name
  | .email => e.email
  | .phone => e.phone
  | .message => e.message

/-- Set a field's entry (`{ ...prev, [name]: v }` on the error object):
the key becomes present with value `v`. -/
def ErrorMap.set (e : ErrorMap) : Field → String → ErrorMap
  | .name, v => { e with name := some v }
  | .email, v => { e with email := some v }
  | .phone, v => { e with phone := some v }
  | .message, v => { e with message := some v }

/-- Remove a field's entry (`delete newErrors[field]`): the key becomes
absent. -/
def ErrorMap.remove (e : ErrorMap) : Field → ErrorMap
  | .name => { e with name := none }
  | .email => { e with email := none }
  | .phone => { e with phone := none }
  | .message => { e with message := none }

/-- Number of present keys: `Object.keys(errors).length`. -/
def ErrorMap.keysCount (e : ErrorMap) : Nat :=
  (if e.name.isSome then 1 else 0) + (if e.email.isSome then 1 else 0) +
  (if e.phone.isSome then 1 else 0) + (if e.message.isSome then 1 else 0)

/-- JavaScript truthiness of `errors[field]`: an absent key
(`undefined`) and the empty string are falsy, every other string is
truthy. -/
def truthy : Option String → Bool
  | none => false
  | some s => s != ""

/-- Embedding of `validateForm` (src/App.js line 84) as a pure function
of the draft: the fresh `newErrors` object it builds and stores with
`setErrors`.  For each of name/email/phone: a required-message when the
trimmed value is empty, else the rule-specific message when the field
rule fails, else no entry.  The message field gets no entry. -/
def validateForm (fd : FormData) : ErrorMap :=
  { name :=
      if jsTrim fd.name = "" then some "Name is required"
      else if (jsTrim fd.name).length < 2 then some "Name must be at least 2 characters"
      else none,
    email :=
      if jsTrim fd.email = "" then some "Email is required"
      else if validateEmail fd.email then none
      else some "Please enter a valid email address",
    phone :=
      if jsTrim fd.phone = "" then some "Phone number is required"
      else if validatePhone fd.phone then none
      else some "Please enter a valid phone number (at least 10 digits)",
    message := none }

/-- The submit-enabling predicate `isFormValid` (src/App.js line 195):
trimmed name truthy (i.e. non-empty), email and phone pass their
validators, and `Object.keys(errors).length === 0`. -/
def isFormValid (fd : FormData) (e : ErrorMap) : Bool :=
  jsTrim fd.name != "" && validateEmail fd.email && validatePhone fd.phone &&
    decide (e.keysCount = 0)

/-- The form-side UI state: the draft and the error object. -/
structure UIState where
  formData : FormData
  errors : ErrorMap
deriving DecidableEq

/-- Embedding of `handleChange` (src/App.js line 146): set the draft
field to the new value; if the field's error entry is truthy, set that
entry to the empty string (the key stays present, only the message is
blanked). -/
def handleChange (f : Field) (v : String) (st : UIState) : UIState :=
  { formData := st.formData.set f v,
    errors := if truthy (st.errors.get f) then st.errors.set f "" else st.errors }

/-- Embedding of `handleBlur` (src/App.js line 110): re-run the single
field's rule and add, replace or delete that field's entry, leaving the
other fields' entries untouched. -/
def handleBlur (f : Field) (st : UIState) : UIState :=
  { st with errors :=
      match f with
      | .name =>
        if jsTrim st.formData.name = "" then st.errors.set .name "Name is required"
        else if (jsTrim st.formData.name).length < 2 then
          st.errors.set .name "Name must be at least 2 characters"
        else st.errors.remove .name
      | .email =>
        if jsTrim st.formData.email = "" then st.errors.set .email "Email is required"
        else if validateEmail st.formData.email then st.errors.remove .email
        else st.errors.set .email "Please enter a valid email address"
      | .phone =>
        if jsTrim st.formData.phone = "" then st.errors.set .phone "Phone number is required"
        else if validatePhone st.formData.phone then st.errors.remove .phone
        else st.errors.set .phone "Please enter a valid phone number (at least 10 digits)"
      | .message => st.errors }

/-- Form-side events the rendered inputs can fire: an `onChange` with a
new value, or an `onBlur`. -/
inductive Event where
  | change (f : Field) (v : String)
  | blur (f : Field)

/-- One UI step: dispatch an event to its handler. -/
def stepUI (st : UIState) : Event → UIState
  | .change f v => handleChange f v st
  | .blur f => handleBlur f st

/-- Run a sequence of form events from a state. -/
def runUI (st : UIState) (evs : List Event) : UIState :=
  evs.foldl stepUI st

/-- The initial form state: empty draft, empty error object. -/
def initUI : UIState :=
  { formData := emptyForm, errors := ErrorMap.empty }

/-- Decimal digit character for a value below ten (JS number
rendering). -/
def digitCh (d : Nat) : Char :=
  Char.ofNat (d + 48)

/-- Fuelled decimal rendering of a natural number, most significant
digit first; with fuel above the number it is the usual base-ten
digit list. -/
def natDigitsAux : Nat → Nat → List Char
  | 0, _ => []
  | fuel + 1, n =>
    if n < 10 then [digitCh n]
    else natDigitsAux fuel (n / 10) ++ [digitCh (n % 10)]

/-- Embedding of JavaScript `Number.prototype.toString()` on the
(integral, non-negative) value of `Date.now()`: the decimal rendering
of the millisecond timestamp. -/
def natToString (n : Nat) : String :=
  ⟨natDigitsAux (n + 1) n⟩

/-- Embedding of `new Date().toISOString()` taken at clock value `t`:
an ISO rendering of the same instant.  Its exact shape is never
inspected by the UI core, so it is modelled as an injective rendering
of the timestamp. -/
def isoString (t : Nat) : String :=
  natToString t ++ "Z"

/-- A stored contact (src/App.js line 13): the spread of the submitted
draft plus exactly the two fields the store adds, `_id` (the rendered
creation timestamp) and `createdAt`. -/
structure Contact where
  _id : String
  name : String
  email : String
  phone : String
  message : String
  createdAt : String
deriving DecidableEq

/-- The mock backend's authoritative state: the `API.contacts` array. -/
structure Store where
  contacts : List Contact
deriving DecidableEq

/-- Response of `API.createContact`: `{ success: true, data: newContact }`. -/
structure CreateResponse where
  success : Bool
  data : Contact
deriving DecidableEq

/-- Response of `API.getContacts`: `{ success: true, data: [...] }`. -/
structure ListResponse where
  success : Bool
  data : List Contact
deriving DecidableEq

/-- Response of `API.deleteContact`: `{ success: true }`. -/
structure DeleteResponse where
  success : Bool
deriving DecidableEq

/-- Embedding of `API.createContact` (src/App.js line 9) at clock value
`t` (the `Date.now()` read): build the new contact from the draft's
fields with `_id` and `createdAt` added, push it at the end of the
collection, and return it with a true success flag. -/
def createContact (t : Nat) (fd : FormData) (s : Store) : CreateResponse × Store :=
  let c : Contact :=
    { _id := natToString t, name := fd.name, email := fd.email,
      phone := fd.phone, message := fd.message, createdAt := isoString t }
  ({ success := true, data := c }, ⟨s.contacts ++ [c]⟩)

/-- Embedding of `API.getContacts` (src/App.js line 23): a reversed
copy of the collection, with a true success flag. -/
def getContacts (s : Store) : ListResponse :=
  { success := true, data := s.contacts.reverse }

/-- Embedding of `API.deleteContact` (src/App.js line 29): keep the
entries whose `_id` differs from the argument, and return a true
success flag unconditionally. -/
def deleteContact (id : String) (s : Store) : DeleteResponse × Store :=
  ({ success := true }, ⟨s.contacts.filter (fun c => c._id != id)⟩)

/-- A mutating store operation, with the clock value read by a create. -/
inductive StoreOp where
  | create (t : Nat) (fd : FormData)
  | delete (id : String)

/-- Apply one store operation to the store state. -/
def applyOp (s : Store) : StoreOp → Store
  | .create t fd => (createContact t fd s).2
  | .delete id => (deleteContact id s).2

/-- Run a sequence of store operations from a store state. -/
def runOps (s : Store) (ops : List StoreOp) : Store :=
  ops.foldl applyOp s

/-- The clock values read by the creates of an operation sequence, in
order. -/
def createTimes (ops : List StoreOp) : List Nat :=
  ops.filterMap (fun op => match op with
    | .create t _ => some t
    | .delete _ => none)

/-- The empty store the session starts from (`contacts: []`,
src/App.js line 7). -/
def emptyStore : Store :=
  ⟨[]⟩

/-- Outcome of one `handleSubmit` run: the resulting form state, error
object and store, plus the number of `API.createContact` calls
issued. -/
structure SubmitResult where
  formData : FormData
  errors : ErrorMap
  store : Store
  createCalls : Nat
deriving DecidableEq

/-- Embedding of `handleSubmit` (src/App.js line 156) at clock value
`t`: run `validateForm` (which stores its fresh error object); if it
left any key, return before any store call; otherwise call
`API.createContact` with the draft, then reset the draft and the error
object. -/
def handleSubmit (t : Nat) (fd : FormData) (s : Store) : SubmitResult :=
  let newErrors := validateForm fd
  if newErrors.keysCount = 0 then
    { formData := emptyForm, errors := ErrorMap.empty,
      store := (createContact t fd s).2, createCalls := 1 }
  else
    { formData := fd, errors := newErrors, store := s, createCalls := 0 }

/-- Numeric value of a decimal digit character (used to read a rendered
timestamp back). -/
def chVal (c : Char) : Nat :=
  c.toNat - 48

/-- Value of a most-significant-first decimal digit list. -/
def parseDigits (l : List Char) : Nat :=
  l.foldl (fun a c => 10 * a + chVal c) 0

/-- An event trace of the rendered form: type a one-letter name, blur it
(recording a length error), fix the name, then fill email and phone
without blurring the name again. -/
def staleErrorTrace : List Event :=
  [.change .name "J", .blur .name, .change .name "John",
   .change .email "a@b.c", .change .phone "1234567890"]

/-- Concrete error object with only a recorded name message. -/
def nameErrorOnly : ErrorMap :=
  { name := some "Name is required", email := none, phone := none, message := none }

/-- Concrete form state carrying the recorded name error. -/
def nameErrorState : UIState :=
  { formData := emptyForm, errors := nameErrorOnly }

/-- The spec's scenario draft with a one-letter name. -/
def shortNameDraft : FormData :=
  { name := "J", email := "j@x.com", phone := "1234567890", message := "" }

/-- The error object holding exactly the three required-field messages. -/
def requiredErrors : ErrorMap :=
  { name := some "Name is required", email := some "Email is required",
    phone := some "Phone number is required", message := none }

/-! Lemmas about the decimal rendering of timestamps: reading the
rendered string back yields the timestamp, hence the rendering is
injective and distinct `Date.now()` reads give distinct `_id`s. -/

theorem chVal_digitCh (d : Nat) (h : d < 10) : chVal (digitCh d) = d := by
  interval_cases d <;> decide

theorem parseDigits_append (l : List Char) (c : Char) :
    parseDigits (l ++ [c]) = 10 * parseDigits l + chVal c := by
  simp [parseDigits, List.foldl_append]

theorem parseDigits_natDigitsAux (fuel : Nat) :
    ∀ n : Nat, n < fuel → parseDigits (natDigitsAux fuel n) = n := by
  induction fuel with
  | zero => intro n h; omega
  | succ fuel ih =>
    intro n h
    by_cases h10 : n < 10
    · simp [natDigitsAux, h10, parseDigits, chVal_digitCh n h10]
    · have hdiv : n / 10 < fuel := by
        have h1 : n / 10 < n := Nat.div_lt_self (by omega) (by omega)
        omega
      have hmod : n % 10 < 10 := Nat.mod_lt _ (by omega)
      rw [natDigitsAux, if_neg h10, parseDigits_append, ih (n / 10) hdiv,
        chVal_digitCh (n % 10) hmod]
      omega

theorem natToString_inj {a b : Nat} (h : natToString a = natToString b) : a = b := by
  have hd : natDigitsAux (a + 1) a = natDigitsAux (b + 1) b := congrArg String.data h
  have ha := parseDigits_natDigitsAux (a + 1) a (Nat.lt_succ_self a)
  have hb := parseDigits_natDigitsAux (b + 1) b (Nat.lt_succ_self b)
  rw [← ha, ← hb, hd]

/-- C1: `isFormValid` is true iff all four conjuncts hold — trimmed
name non-empty, `validateEmail` passes, `validatePhone` passes, and the
error object has no keys — and for each conjunct, the predicate with
that conjunct dropped agrees with `isFormValid` exactly when the other
three conjuncts imply the dropped one. -/
theorem isFormValid_iff_four_conjuncts (fd : FormData) (e : ErrorMap) :
    (isFormValid fd e = true ↔
      (jsTrim fd.name ≠ "" ∧ validateEmail fd.email = true ∧
        validatePhone fd.phone = true ∧ e.keysCount = 0)) ∧
    (((validateEmail fd.email = true ∧ validatePhone fd.phone = true ∧ e.keysCount = 0) ↔
        isFormValid fd e = true) ↔
      ((validateEmail fd.email = true ∧ validatePhone fd.phone = true ∧ e.keysCount = 0) →
        jsTrim fd.name ≠ "")) ∧
    (((jsTrim fd.name ≠ "" ∧ validatePhone fd.phone = true ∧ e.keysCount = 0) ↔
        isFormValid fd e = true) ↔
      ((jsTrim fd.name ≠ "" ∧ validatePhone fd.phone = true ∧ e.keysCount = 0) →
        validateEmail fd.email = true)) ∧
    (((jsTrim fd.name ≠ "" ∧ validateEmail fd.email = true ∧ e.keysCount = 0) ↔
        isFormValid fd e = true) ↔
      ((jsTrim fd.name ≠ "" ∧ validateEmail fd.email = true ∧ e.keysCount = 0) →
        validatePhone fd.phone = true)) ∧
    (((jsTrim fd.name ≠ "" ∧ validateEmail fd.email = true ∧ validatePhone fd.phone = true) ↔
        isFormValid fd e = true) ↔
      ((jsTrim fd.name ≠ "" ∧ validateEmail fd.email = true ∧ validatePhone fd.phone = true) →
        e.keysCount = 0)) := by
  have hmain : isFormValid fd e = true ↔
      (jsTrim fd.name ≠ "" ∧ validateEmail fd.email = true ∧
        validatePhone fd.phone = true ∧ e.keysCount = 0) := by
    simp [isFormValid, Bool.and_eq_true, bne_iff_ne, and_assoc]
  refine ⟨hmain, ?_, ?_, ?_, ?_⟩ <;> rw [hmain] <;> tauto

/-- C2 fails as stated: in a state whose error object records a (truthy)
message under the name key, `handleChange` on the name field leaves the
key present (mapped to the empty string) rather than removing it. -/
theorem handleChange_keeps_key_counterexample :
    truthy (nameErrorState.errors.get .name) = true ∧
    (handleChange .name "John" nameErrorState).errors.get .name ≠ none := by
  decide

/-- C2 amended: when a truthy error is recorded for the field,
`handleChange` sets the draft field to the new value and overwrites the
field's error entry with the empty string — the stale message is gone
and the entry is no longer truthy, but the key itself stays present. -/
theorem handleChange_blanks_error (st : UIState) (f : Field) (v : String)
    (h : truthy (st.errors.get f) = true) :
    (handleChange f v st).formData = st.formData.set f v ∧
    (handleChange f v st).errors = st.errors.set f "" ∧
    (handleChange f v st).errors.get f = some "" ∧
    truthy ((handleChange f v st).errors.get f) = false := by
  refine ⟨rfl, ?_, ?_, ?_⟩
  · simp [handleChange, h]
  · simp only [handleChange, h, if_true]
    cases f <;> simp [ErrorMap.get, ErrorMap.set]
  · simp only [handleChange, h, if_true]
    cases f <;> simp [ErrorMap.get, ErrorMap.set, truthy]

/-- Witness for the amended C2 at a concrete state with a recorded name
error. -/
theorem handleChange_blanks_error_witness :
    truthy (nameErrorState.errors.get .name) = true ∧
    ((handleChange .name "John" nameErrorState).formData = emptyForm.set .name "John" ∧
      (handleChange .name "John" nameErrorState).errors = nameErrorOnly.set .name "" ∧
      (handleChange .name "John" nameErrorState).errors.get .name = some "" ∧
      truthy ((handleChange .name "John" nameErrorState).errors.get .name) = false) :=
  ⟨by decide, handleChange_blanks_error nameErrorState .name "John" (by decide)⟩

/-- C4: `deleteContact` always reports success (also on a second,
matching-free call), a second delete of the same id leaves the store
exactly as the first left it, and after the first call the listed
collection has no entry carrying that id. -/
theorem deleteContact_idempotent_success (id : String) (s : Store) :
    (deleteContact id s).1.success = true ∧
    (deleteContact id (deleteContact id s).2).1.success = true ∧
    (deleteContact id (deleteContact id s).2).2 = (deleteContact id s).2 ∧
    (∀ c ∈ (getContacts (deleteContact id s).2).data, c._id ≠ id) := by
  refine ⟨rfl, rfl, ?_, ?_⟩
  · simp [deleteContact, List.filter_filter]
  · intro c hc
    simp only [getContacts, deleteContact, List.mem_reverse, List.mem_filter,
      bne_iff_ne, ne_eq] at hc
    exact hc.2

/-- C6: when `validateForm` records any error, `handleSubmit` returns
before any store call: zero `createContact` calls, the store untouched,
the draft kept, and the error object set to `validateForm`'s output. -/
theorem handleSubmit_rejected_no_store_call (t : Nat) (fd : FormData) (s : Store)
    (h : (validateForm fd).keysCount ≠ 0) :
    (handleSubmit t fd s).createCalls = 0 ∧
    (handleSubmit t fd s).store = s ∧
    (handleSubmit t fd s).formData = fd ∧
    (handleSubmit t fd s).errors = validateForm fd := by
  unfold handleSubmit
  simp [h]

/-- Witness for C6 at the spec's scenario draft with name "J" (trimmed
length one). -/
theorem handleSubmit_rejected_no_store_call_witness :
    (validateForm shortNameDraft).keysCount ≠ 0 ∧
    ((handleSubmit 0 shortNameDraft emptyStore).createCalls = 0 ∧
      (handleSubmit 0 shortNameDraft emptyStore).store = emptyStore ∧
      (handleSubmit 0 shortNameDraft emptyStore).formData = shortNameDraft ∧
      (handleSubmit 0 shortNameDraft emptyStore).errors = validateForm shortNameDraft) :=
  ⟨by decide, handleSubmit_rejected_no_store_call 0 shortNameDraft emptyStore (by decide)⟩

/-- C8: after the trace that records a name error, fixes the name and
fills the other fields, every individual field check passes, yet the
error object still holds the name key mapped to the empty string, so
`isFormValid` is false; one further blur of the name re-enables
submission. -/
theorem staleErrorTrace_blocks_submission :
    jsTrim (runUI initUI staleErrorTrace).formData.name ≠ "" ∧
    validateEmail (runUI initUI staleErrorTrace).formData.email = true ∧
    validatePhone (runUI initUI staleErrorTrace).formData.phone = true ∧
    (runUI initUI staleErrorTrace).errors.get .name = some "" ∧
    (runUI initUI staleErrorTrace).errors.keysCount ≠ 0 ∧
    isFormValid (runUI initUI staleErrorTrace).formData
      (runUI initUI staleErrorTrace).errors = false ∧
    isFormValid (runUI (runUI initUI staleErrorTrace) [.blur .name]).formData
      (runUI (runUI initUI staleErrorTrace) [.blur .name]).errors = true := by
  decide

/-- C9: `createContact` copies the draft's name, email, phone and
message into the stored and returned contact verbatim — no trimming or
normalisation — and the only added fields are `_id` (the rendered
timestamp) and `createdAt`; the new contact is appended to the
collection. -/
theorem createContact_verbatim_fields (t : Nat) (fd : FormData) (s : Store) :
    (createContact t fd s).1.data.name = fd.name ∧
    (createContact t fd s).1.data.email = fd.email ∧
    (createContact t fd s).1.data.phone = fd.phone ∧
    (createContact t fd s).1.data.message = fd.message ∧
    (createContact t fd s).1.data._id = natToString t ∧
    (createContact t fd s).1.data.createdAt = isoString t ∧
    (createContact t fd s).2.contacts = s.contacts ++ [(createContact t fd s).1.data] := by
  exact ⟨rfl, rfl, rfl, rfl, rfl, rfl, rfl⟩

/-- C10: any string of length at least ten whose characters are all
drawn from space, hyphen, plus and parentheses passes `validatePhone`
while containing no digit at all: the rule counts allowed characters,
not digits. -/
theorem validatePhone_accepts_digitless (s : String)
    (hchars : s.toList.all
      (fun c => c = ' ' || c = '-' || c = '+' || c = '(' || c = ')') = true)
    (hlen : 10 ≤ s.length) :
    validatePhone s = true ∧ s.toList.all (fun c => !c.isDigit) = true := by
  simp only [List.all_eq_true, Bool.or_eq_true, decide_eq_true_eq] at hchars
  constructor
  · simp only [validatePhone, Bool.and_eq_true, List.all_eq_true, decide_eq_true_eq]
    refine ⟨fun c hc => ?_, hlen⟩
    rcases hchars c hc with ((((h | h) | h) | h) | h) <;> subst h <;> decide
  · simp only [List.all_eq_true]
    intro c hc
    rcases hchars c hc with ((((h | h) | h) | h) | h) <;> subst h <;> decide

/-- C3: after a create with a fresh timestamp, the listed collection is
the created contact followed by the previous listing — so it holds
exactly one entry equal to the created contact and holds it first; the
listing is always the collection reversed, and after a further create
the newer result is first. -/
theorem createContact_round_trip (s : Store) (t : Nat) (fd : FormData)
    (hfresh : ∀ c ∈ s.contacts, c._id ≠ natToString t) :
    (getContacts (createContact t fd s).2).data
      = (createContact t fd s).1.data :: (getContacts s).data ∧
    (getContacts (createContact t fd s).2).data.head?
      = some (createContact t fd s).1.data ∧
    (getContacts (createContact t fd s).2).data.count (createContact t fd s).1.data = 1 ∧
    (∀ s' : Store, (getContacts s').data = s'.contacts.reverse) ∧
    (∀ (t₂ : Nat) (fd₂ : FormData),
      (getContacts (createContact t₂ fd₂ (createContact t fd s).2).2).data.head?
        = some (createContact t₂ fd₂ (createContact t fd s).2).1.data) := by
  have hlist : (getContacts (createContact t fd s).2).data
      = (createContact t fd s).1.data :: (getContacts s).data := by
    simp [getContacts, createContact]
  refine ⟨hlist, by rw [hlist]; rfl, ?_, fun s' => rfl, fun t₂ fd₂ => by simp [getContacts, createContact]⟩
  rw [hlist, List.count_cons_self]
  have hzero : (getContacts s).data.count (createContact t fd s).1.data = 0 := by
    rw [List.count_eq_zero]
    intro hc
    rw [getContacts, List.mem_reverse] at hc
    exact hfresh _ hc rfl
  rw [hzero]

/-- Witness for C3: create into the empty store at clock zero. -/
theorem createContact_round_trip_witness :
    (∀ c ∈ emptyStore.contacts, c._id ≠ natToString 0) ∧
    ((getContacts (createContact 0 emptyForm emptyStore).2).data
        = (createContact 0 emptyForm emptyStore).1.data :: (getContacts emptyStore).data ∧
      (getContacts (createContact 0 emptyForm emptyStore).2).data.head?
        = some (createContact 0 emptyForm emptyStore).1.data ∧
      (getContacts (createContact 0 emptyForm emptyStore).2).data.count
        (createContact 0 emptyForm emptyStore).1.data = 1 ∧
      (∀ s' : Store, (getContacts s').data = s'.contacts.reverse) ∧
      (∀ (t₂ : Nat) (fd₂ : FormData),
        (getContacts (createContact t₂ fd₂ (createContact 0 emptyForm emptyStore).2).2).data.head?
          = some (createContact t₂ fd₂ (createContact 0 emptyForm emptyStore).2).1.data)) :=
  ⟨by simp [emptyStore],
    createContact_round_trip emptyStore 0 emptyForm (by simp [emptyStore])⟩

/-- C5: `validateForm` records, per field, the required message exactly
when the trimmed value is empty, the rule message exactly when the
trimmed value is non-empty but the field rule fails, and no entry
exactly when the rule passes; the message field never gets an entry;
the empty draft yields exactly the three required-field messages; and
the map it produces is empty precisely when the form it leaves behind
is submittable (`isFormValid` on the draft with this freshly stored
error object). -/
theorem validateForm_exact (fd : FormData) :
    ((validateForm fd).name = some "Name is required" ↔ jsTrim fd.name = "") ∧
    ((validateForm fd).name = some "Name must be at least 2 characters" ↔
      (jsTrim fd.name ≠ "" ∧ (jsTrim fd.name).length < 2)) ∧
    ((validateForm fd).name = none ↔
      (jsTrim fd.name ≠ "" ∧ 2 ≤ (jsTrim fd.name).length)) ∧
    ((validateForm fd).email = some "Email is required" ↔ jsTrim fd.email = "") ∧
    ((validateForm fd).email = some "Please enter a valid email address" ↔
      (jsTrim fd.email ≠ "" ∧ validateEmail fd.email = false)) ∧
    ((validateForm fd).email = none ↔
      (jsTrim fd.email ≠ "" ∧ validateEmail fd.email = true)) ∧
    ((validateForm fd).phone = some "Phone number is required" ↔ jsTrim fd.phone = "") ∧
    ((validateForm fd).phone = some "Please enter a valid phone number (at least 10 digits)" ↔
      (jsTrim fd.phone ≠ "" ∧ validatePhone fd.phone = false)) ∧
    ((validateForm fd).phone = none ↔
      (jsTrim fd.phone ≠ "" ∧ validatePhone fd.phone = true)) ∧
    (validateForm fd).message = none ∧
    validateForm emptyForm = requiredErrors ∧
    (validateForm emptyForm).keysCount = 3 ∧
    ((validateForm fd).keysCount = 0 ↔ isFormValid fd (validateForm fd) = true) := by
  by_cases h1 : jsTrim fd.name = "" <;>
    by_cases h2 : (jsTrim fd.name).length < 2 <;>
    by_cases h3 : jsTrim fd.email = "" <;>
    by_cases h4 : validateEmail fd.email = true <;>
    by_cases h5 : jsTrim fd.phone = "" <;>
    by_cases h6 : validatePhone fd.phone = true <;>
    simp_all [validateForm, isFormValid, ErrorMap.keysCount, requiredErrors, emptyForm,
      bne_iff_ne, Bool.not_eq_true, Nat.not_lt, jsTrim]

/-- Invariant step for C7: running operations whose create timestamps
are strictly increasing, from a store whose contacts carry ids rendered
from timestamps below every upcoming create time and pairwise distinct
ids, keeps the ids pairwise distinct. -/
theorem runOps_pairwise_ne (ops : List StoreOp) :
    ∀ s : Store,
      (∀ c ∈ s.contacts, ∃ u, c._id = natToString u ∧ ∀ t' ∈ createTimes ops, u < t') →
      s.contacts.Pairwise (fun c₁ c₂ => c₁._id ≠ c₂._id) →
      List.Pairwise (· < ·) (createTimes ops) →
      (runOps s ops).contacts.Pairwise (fun c₁ c₂ => c₁._id ≠ c₂._id) := by
  induction ops with
  | nil => intro s _ hdist _; simpa [runOps] using hdist
  | cons op rest ih =>
    intro s hbound hdist htimes
    have hrun : runOps s (op :: rest) = runOps (applyOp s op) rest := rfl
    rw [hrun]
    cases op with
    | create t fd =>
      have htc : createTimes (StoreOp.create t fd :: rest) = t :: createTimes rest := rfl
      rw [htc] at hbound htimes
      rw [List.pairwise_cons] at htimes
      obtain ⟨hlt, hrest⟩ := htimes
      apply ih
      · intro c hc
        simp only [applyOp, createContact, List.mem_append, List.mem_singleton] at hc
        rcases hc with hold | hnew
        · obtain ⟨u, hu, hub⟩ := hbound c hold
          exact ⟨u, hu, fun t' ht' => hub t' (List.mem_cons_of_mem _ ht')⟩
        · refine ⟨t, ?_, fun t' ht' => hlt t' ht'⟩
          rw [hnew]
      · simp only [applyOp, createContact]
        rw [List.pairwise_append]
        refine ⟨hdist, List.pairwise_singleton _ _, ?_⟩
        intro a ha b hb
        rw [List.mem_singleton] at hb
        subst hb
        obtain ⟨u, hu, hub⟩ := hbound a ha
        have hut : u < t := hub t (List.mem_cons_self _ _)
        rw [hu]
        intro heq
        have := natToString_inj heq
        omega
      · exact hrest
    | delete id =>
      have htc : createTimes (StoreOp.delete id :: rest) = createTimes rest := rfl
      rw [htc] at hbound htimes
      apply ih
      · intro c hc
        have hc' : c ∈ s.contacts := by
          simp only [applyOp, deleteContact] at hc
          exact (List.mem_filter.mp hc).1
        exact hbound c hc'
      · have hsub : (applyOp s (StoreOp.delete id)).contacts.Sublist s.contacts := by
          simp only [applyOp, deleteContact]
          exact List.filter_sublist _
        exact List.Pairwise.sublist hsub hdist
      · exact htimes

/-- C7: starting from the empty store, any sequence of creates and
deletes whose `Date.now()` reads are strictly increasing (the store's
monotonic-enough clock, guaranteed within a session by the half-second
sleep before each id assignment) leaves a store whose contacts have
pairwise distinct identifiers. -/
theorem store_ids_pairwise_distinct (ops : List StoreOp)
    (h : List.Pairwise (· < ·) (createTimes ops)) :
    (runOps emptyStore ops).contacts.Pairwise (fun c₁ c₂ => c₁._id ≠ c₂._id) :=
  runOps_pairwise_ne ops emptyStore (by simp [emptyStore]) (by simp [emptyStore]) h

/-- Witness for C7: two creates at increasing clock values and a
delete. -/
theorem store_ids_pairwise_distinct_witness :
    List.Pairwise (· < ·)
      (createTimes [StoreOp.create 1 emptyForm, StoreOp.create 2 shortNameDraft,
        StoreOp.delete "1"]) ∧
    (runOps emptyStore [StoreOp.create 1 emptyForm, StoreOp.create 2 shortNameDraft,
        StoreOp.delete "1"]).contacts.Pairwise (fun c₁ c₂ => c₁._id ≠ c₂._id) :=
  ⟨by decide,
    store_ids_pairwise_distinct
      [StoreOp.create 1 emptyForm, StoreOp.create 2 shortNameDraft, StoreOp.delete "1"]
      (by decide)⟩

/-- Witness for C10 at the string of ten hyphens. -/
theorem validatePhone_accepts_digitless_witness :
    ("----------" : String).toList.all
      (fun c => c = ' ' || c = '-' || c = '+' || c = '(' || c = ')') = true ∧
    10 ≤ ("----------" : String).length ∧
    (validatePhone "----------" = true ∧
      ("----------" : String).toList.all (fun c => !c.isDigit) = true) :=
  ⟨by decide, by decide, validatePhone_accepts_digitless "----------" (by decide) (by decide)⟩

end ContactApp
